import Mathlib

/-!
A shallow embedding of `SunCycle.py`, the Sublime Text day/night theme
switcher.  Python methods become pure functions; the mutable object state of
the `Settings` and `SunCycle` classes is passed explicitly; network responses
are inputs (an `Option` payload, `none` meaning `_callJsonApi` swallowed an
exception and returned `None`); Python exceptions are an explicit `PyError`
result, and state mutations performed before a raise are kept, as in Python.
Times are modelled as integer seconds, and Python floats as exact rationals
(only equality and order on them matter here).
-/

/-- Geographic coordinates; Python keeps them as a dict of two floats,
modelled as exact rationals compared by value (dict equality). -/
structure Coordinates where
  latitude : Rat
  longitude : Rat
  deriving DecidableEq, Repr

/-- Modelled from the spec: the SunEvaluator (`sun.py`, imported but not in
the sources) wraps the supplied sunrise/sunset formula, parameterized by the
constructor argument `Sun(self.coordinates)`; we record exactly that
argument.  The trigonometric formula itself stays external (a function
parameter where sunrise/sunset values are needed). -/
structure Sun where
  coordinates : Option Coordinates
  deriving DecidableEq, Repr

/-- Modelled from the spec: ResolvedTimezone (`timezone.py`, imported but not
in the sources) is either the UTC sentinel `UTC()` or a named fixed offset
`FixedOffset(offsetMinutes, name)`. -/
inductive Timezone where
  | utc : Timezone
  | fixedOffset (offsetMinutes : Rat) (name : String) : Timezone
  deriving DecidableEq, Repr

/-- The Python exceptions `SunCycle.py` can raise. -/
inductive PyError where
  | keyError (msg : String) : PyError
  | typeError (msg : String) : PyError
  | attributeError (msg : String) : PyError
  deriving DecidableEq, Repr

/-- An outgoing network request (`_callJsonApi` invocation). -/
inductive NetworkCall where
  | ipLookup : NetworkCall
  | tzLookup : NetworkCall
  deriving DecidableEq, Repr

/-- `self._ipcache = {'date': now}`. -/
structure IpCacheEntry where
  date : Int
  deriving DecidableEq, Repr

/-- `self._tzcache = {'date': ..., 'fixedCoordinates': ..., 'coordinates': ...}`. -/
structure TzCacheEntry where
  date : Int
  fixedCoordinates : Bool
  coordinates : Option Coordinates
  deriving DecidableEq, Repr

/-- A parsed geo-IP JSON payload: which of the two relevant fields are
present, and their values.  `none` at the outer `Option` (where used) is a
failed `_callJsonApi` returning Python `None`. -/
structure GeoPayload where
  latitude : Option Rat
  longitude : Option Rat
  deriving DecidableEq, Repr

/-- A parsed timezone JSON payload: which of the three relevant fields are
present, and their values (offsets in seconds). -/
structure TzPayload where
  timeZoneName : Option String
  rawOffset : Option Int
  dstOffset : Option Int
  deriving DecidableEq, Repr

/-- One of the `day` / `night` settings blocks; `config.get(key)` yields
`None` when the key is absent, hence the `Option`s. -/
structure ConfigBlock where
  color_scheme : Option String
  theme : Option String
  deriving DecidableEq, Repr

/-- The package settings file contents relevant to `Settings.load`. -/
structure ConfigStore where
  day : Option ConfigBlock
  night : Option ConfigBlock
  latitude : Option Rat
  longitude : Option Rat
  deriving DecidableEq, Repr

/-- The host preference store (`Preferences.sublime-settings`) keys
`cycle` reads and writes. -/
structure PrefStore where
  color_scheme : Option String
  theme : Option String
  deriving DecidableEq, Repr

/-- A write issued against the host preference store (`set` calls). -/
inductive WriteOp where
  | setColorScheme (v : String) : WriteOp
  | setTheme (v : String) : WriteOp
  deriving DecidableEq, Repr

/-- The mutable attributes of the Python `Settings` object. -/
structure SettingsState where
  loaded : Bool
  sun : Option Sun
  coordinates : Option Coordinates
  timezone : Option Timezone
  fixedCoordinates : Bool
  ipcache : Option IpCacheEntry
  tzcache : Option TzCacheEntry
  day : Option ConfigBlock
  night : Option ConfigBlock
  deriving DecidableEq, Repr

/-- `IP_CACHE_LIFETIME = timedelta(days=1)`, in seconds. -/
def IP_CACHE_LIFETIME : Int := 86400

/-- `TZ_CACHE_LIFETIME = timedelta(days=1)`, in seconds. -/
def TZ_CACHE_LIFETIME : Int := 86400

/-- `ST2_THEME_PREFIX` in the source: the Sublime Text 2 scheme path head. -/
def ST2_THEME_START : String := "Packages/Color Scheme - Default/"

/-- `ST2_THEME_SUFFIX` in the source. -/
def ST2_THEME_END : String := ".tmTheme"

/-- `ST3_THEME_PREFIX` in the source: the Sublime Text 3 scheme path head. -/
def ST3_THEME_START : String := "Packages/User/"

/-- `ST3_THEME_SUFFIX` in the source. -/
def ST3_THEME_END : String := " (SL).tmTheme"

/-- Python `str.startswith`. -/
def pyStartsWith (s pat : String) : Bool :=
  pat.data.isPrefixOf s.data

/-- Python `str.endswith`. -/
def pyEndsWith (s pat : String) : Bool :=
  pat.data.reverse.isPrefixOf s.data.reverse

/-- Fuel-driven worker for `pyReplace`; with fuel at least the length of the
input and a nonempty pattern it replaces every non-overlapping occurrence,
leftmost first, exactly as Python `str.replace` does. -/
def pyReplaceAux (rep pat : List Char) : Nat → List Char → List Char
  | 0, s => s
  | _ + 1, [] => []
  | fuel + 1, c :: rest =>
    if pat ≠ [] ∧ pat.isPrefixOf (c :: rest) then
      rep ++ pyReplaceAux rep pat fuel ((c :: rest).drop pat.length)
    else
      c :: pyReplaceAux rep pat fuel rest

/-- Python `str.replace` (all occurrences), for nonempty patterns. -/
def pyReplace (s pat rep : String) : String :=
  ⟨pyReplaceAux rep.data pat.data s.data.length s.data⟩

namespace Settings

/-- `Settings._needsIpCacheRefresh`. -/
def needsIpCacheRefresh (s : SettingsState) (now : Int) : Bool :=
  match s.ipcache with
  | none => true
  | some e => decide (e.date < now - IP_CACHE_LIFETIME)

/-- `Settings._needsTzCacheRefresh`: early-return chain from the source. -/
def needsTzCacheRefresh (s : SettingsState) (now : Int) : Bool :=
  match s.tzcache with
  | none => true
  | some e =>
    if e.fixedCoordinates ≠ s.fixedCoordinates then true
    else if e.coordinates ≠ s.coordinates then true
    else decide (e.date < now - TZ_CACHE_LIFETIME)

/-- The tail of `Settings.getSun`: `if self.sun: return self.sun else raise
KeyError('SunCycle: no coordinates')`. -/
def sunResult (s : SettingsState) (calls : List NetworkCall) :
    Except PyError Sun × SettingsState × List NetworkCall :=
  match s.sun with
  | some sun => (.ok sun, s, calls)
  | none => (.error (.keyError "SunCycle: no coordinates"), s, calls)

/-- `Settings.getSun`.  `geoResp` is what `_getIPData` returns: `none` when
`_callJsonApi` caught an exception and returned Python `None`, otherwise the
parsed payload.  Note the source tests `'latitude' in result` without
guarding against `result` being `None`: membership on `None` raises
`TypeError` (after `self._ipcache` has already been overwritten). -/
def getSun (s : SettingsState) (now : Int) (geoResp : Option GeoPayload) :
    Except PyError Sun × SettingsState × List NetworkCall :=
  if s.fixedCoordinates then
    match s.sun with
    | some sun => (.ok sun, s, [])
    | none =>
      let sun : Sun := ⟨s.coordinates⟩
      (.ok sun, { s with sun := some sun }, [])
  else
    if needsIpCacheRefresh s now then
      let s1 := { s with ipcache := some ⟨now⟩ }
      match geoResp with
      | none =>
        (.error (.typeError "argument of type NoneType is not iterable"), s1,
          [NetworkCall.ipLookup])
      | some p =>
        match p.latitude, p.longitude with
        | some la, some lo =>
          let c : Coordinates := ⟨la, lo⟩
          sunResult { s1 with coordinates := some c, sun := some ⟨some c⟩ }
            [NetworkCall.ipLookup]
        | _, _ => sunResult s1 [NetworkCall.ipLookup]
    else
      sunResult s []

/-- `Settings.getTimeZone`.  `tzResp` is what `_getTimezoneData` returns.
The source guards `if result and 'timeZoneName' in result:` (so a `None`
result or a payload without `timeZoneName` falls back to `UTC()`), but then
reads `result['rawOffset']` and `result['dstOffset']` unguarded, raising
`KeyError` when one is absent.  The cache entry is written before the
payload is inspected. -/
def getTimeZone (s : SettingsState) (now : Int) (tzResp : Option TzPayload) :
    Except PyError (Option Timezone) × SettingsState × List NetworkCall :=
  if needsTzCacheRefresh s now then
    let s1 := { s with tzcache := some ⟨now, s.fixedCoordinates, s.coordinates⟩ }
    match tzResp with
    | some p =>
      match p.timeZoneName with
      | some name =>
        match p.rawOffset with
        | none => (.error (.keyError "rawOffset"), s1, [NetworkCall.tzLookup])
        | some raw =>
          match p.dstOffset with
          | none => (.error (.keyError "dstOffset"), s1, [NetworkCall.tzLookup])
          | some dst =>
            let s2 := { s1 with
              timezone := some (Timezone.fixedOffset (((raw + dst : Int) : Rat) / 60) name) }
            (.ok s2.timezone, s2, [NetworkCall.tzLookup])
      | none =>
        let s2 := { s1 with timezone := some Timezone.utc }
        (.ok s2.timezone, s2, [NetworkCall.tzLookup])
    | none =>
      let s2 := { s1 with timezone := some Timezone.utc }
      (.ok s2.timezone, s2, [NetworkCall.tzLookup])
  else
    (.ok s.timezone, s, [])

/-- `Settings.load`: validate the `day`/`night` blocks, reset both caches,
re-read the blocks and the fixed coordinates, then eagerly resolve the sun
evaluator and the timezone (issuing any needed lookups).  The on-change
re-registration, console logging and `onChange` callback carry no state
relevant here. -/
def load (s : SettingsState) (cfg : ConfigStore) (now : Int)
    (geoResp : Option GeoPayload) (tzResp : Option TzPayload) :
    Except PyError Unit × SettingsState × List NetworkCall :=
  if cfg.day.isNone then
    (.error (.keyError "SunCycle: missing day setting"), s, [])
  else if cfg.night.isNone then
    (.error (.keyError "SunCycle: missing night setting"), s, [])
  else
    let s1 := { s with tzcache := none, ipcache := none,
                       day := cfg.day, night := cfg.night }
    let s2 :=
      match cfg.latitude, cfg.longitude with
      | some la, some lo =>
        { s1 with fixedCoordinates := true, coordinates := some ⟨la, lo⟩ }
      | _, _ => { s1 with fixedCoordinates := false }
    match getSun s2 now geoResp with
    | (.error e, s3, c1) => (.error e, s3, c1)
    | (.ok _, s3, c1) =>
      match getTimeZone s3 now tzResp with
      | (.error e, s4, c2) => (.error e, s4, c1 ++ c2)
      | (.ok _, s4, c2) => (.ok (), { s4 with loaded := true }, c1 ++ c2)

end Settings

/-- `'day' if now >= sun.sunrise(now) and now <= sun.sunset(now) else
'night'` — the comparison at the heart of `SunCycle.getDayOrNight`, on the
instants involved. -/
def dayOrNightOf (now sunriseT sunsetT : Int) : String :=
  if sunriseT ≤ now ∧ now ≤ sunsetT then "day" else "night"

namespace SunCycle

/-- `SunCycle.getDayOrNight`: resolve the sun evaluator and the timezone
(each may mutate the settings state and issue lookups), then classify.
`sunrise`/`sunset` are the externally supplied formula from `sun.py`. -/
def getDayOrNight (s : SettingsState) (now : Int) (geoResp : Option GeoPayload)
    (tzResp : Option TzPayload) (sunrise sunset : Sun → Int → Int) :
    Except PyError String × SettingsState × List NetworkCall :=
  match Settings.getSun s now geoResp with
  | (.error e, s1, c1) => (.error e, s1, c1)
  | (.ok sun, s1, c1) =>
    match Settings.getTimeZone s1 now tzResp with
    | (.error e, s2, c2) => (.error e, s2, c1 ++ c2)
    | (.ok _, s2, c2) =>
      (.ok (dayOrNightOf now (sunrise sun now) (sunset sun now)), s2, c1 ++ c2)

/-- The `compareWith` computation of `SunCycle.cycle`: under Python 3 the
source evaluates `newColorScheme.startswith(ST2_THEME_PREFIX)` before any
truthiness guard, so a missing (`None`) scheme raises `AttributeError`; a
scheme of ST2 shape is rewritten to ST3 shape for comparison purposes. -/
def translateScheme (pv : Nat) (newColorScheme : Option String) :
    Except PyError (Option String) :=
  if pv = 3 then
    match newColorScheme with
    | none => .error (.attributeError "NoneType object has no attribute startswith")
    | some sch =>
      if pyStartsWith sch ST2_THEME_START && pyEndsWith sch ST2_THEME_END then
        .ok (some (ST3_THEME_START ++
          pyReplace (pyReplace sch ST2_THEME_START "") ST2_THEME_END "" ++
          ST3_THEME_END))
      else .ok (some sch)
  else .ok newColorScheme

/-- The guarded `color_scheme` write of `SunCycle.cycle`: write the
configured literal when it is truthy and the (possibly translated)
comparison value differs from the stored one. -/
def applyScheme (compareWith newColorScheme : Option String) (prefs : PrefStore) :
    PrefStore × List WriteOp × Bool :=
  match newColorScheme with
  | some sch =>
    if sch ≠ "" ∧ compareWith ≠ prefs.color_scheme then
      ({ prefs with color_scheme := some sch }, [WriteOp.setColorScheme sch], true)
    else (prefs, [], false)
  | none => (prefs, [], false)

/-- The guarded `theme` write of `SunCycle.cycle`. -/
def applyTheme (newTheme : Option String) (prefs : PrefStore) :
    PrefStore × List WriteOp × Bool :=
  match newTheme with
  | some th =>
    if th ≠ "" ∧ some th ≠ prefs.theme then
      ({ prefs with theme := some th }, [WriteOp.setTheme th], true)
    else (prefs, [], false)
  | none => (prefs, [], false)

/-- The settings-application section of `SunCycle.cycle` (everything after
`config = getattr(...)`): the ST3 color-scheme name translation, the two
guarded writes, and the final flag saying whether `save_settings` runs. -/
def cycleApply (pv : Nat) (config : ConfigBlock) (prefs : PrefStore) :
    Except PyError (PrefStore × List WriteOp × Bool) :=
  match translateScheme pv config.color_scheme with
  | .error e => .error e
  | .ok compareWith =>
    let step1 := applyScheme compareWith config.color_scheme prefs
    let step2 := applyTheme config.theme step1.1
    .ok (step2.1, step1.2.1 ++ step2.2.1, step1.2.2 || step2.2.2)

/-- `SunCycle.cycle`: classify day/night (mutating the resolver state), pick
the matching config block from the settings object, and apply it to the host
preference store.  The host guarantees `Preferences.sublime-settings` is
loaded, so that guard is not modelled. -/
def cycle (pv : Nat) (s : SettingsState) (prefs : PrefStore) (now : Int)
    (geoResp : Option GeoPayload) (tzResp : Option TzPayload)
    (sunrise sunset : Sun → Int → Int) :
    Except PyError (PrefStore × List WriteOp × Bool) × SettingsState × List NetworkCall :=
  match getDayOrNight s now geoResp tzResp sunrise sunset with
  | (.error e, s1, c) => (.error e, s1, c)
  | (.ok cls, s1, c) =>
    match (if cls = "day" then s1.day else s1.night) with
    | none => (.error (.attributeError "NoneType object has no attribute get"), s1, c)
    | some config =>
      match cycleApply pv config prefs with
      | .error e => (.error e, s1, c)
      | .ok r => (.ok r, s1, c)

end SunCycle

/-- The scheduler's observable state: the `halt` flag set by `stop()`,
counters for timers armed and cycles run by `loop()`, and the world the
`cycle()` side effects act on (preference store, caches, ...). -/
structure SchedulerState (α : Type) where
  halt : Bool
  timersScheduled : Nat
  cyclesRun : Nat
  world : α
  deriving DecidableEq, Repr

namespace SunCycle

/-- One firing of the periodic callback `SunCycle.loop`: if `halt` is unset
it re-arms the timer (`sublime.set_timeout(self.loop, ...)`) and runs
`cycle()` (abstracted as `cycleFn` acting on the world); otherwise it does
nothing at all. -/
def loop {α : Type} (cycleFn : α → α) (st : SchedulerState α) : SchedulerState α :=
  if st.halt then st
  else { st with timersScheduled := st.timersScheduled + 1,
                 cyclesRun := st.cyclesRun + 1,
                 world := cycleFn st.world }

/-- `SunCycle.stop`: set the halt flag. -/
def stop {α : Type} (st : SchedulerState α) : SchedulerState α :=
  { st with halt := true }

end SunCycle

/-- The timezone-cache staleness rule in the spec's own words: refresh if no
cache entry, or the fixed-mode flag changed, or the coordinates changed, or
the entry's age exceeds one day. -/
def needsTzCacheRefreshSpec (s : SettingsState) (now : Int) : Bool :=
  match s.tzcache with
  | none => true
  | some e =>
    decide (¬e.fixedCoordinates = s.fixedCoordinates) ||
    decide (¬e.coordinates = s.coordinates) ||
    decide (now - e.date > TZ_CACHE_LIFETIME)

/-- A timezone-service outcome the spec's failure clause covers: the call
errored out (`None` result) or the payload has no `timeZoneName`. -/
def tzRespFailing : Option TzPayload → Bool
  | none => true
  | some p => p.timeZoneName.isNone

/-- Timezone-service outcomes on which `getTimeZone` cannot raise: a failed
call, a payload without `timeZoneName`, or a payload that carries both
offset fields alongside `timeZoneName`. -/
def tzRespBenign : Option TzPayload → Bool
  | none => true
  | some p => p.timeZoneName.isNone || (p.rawOffset.isSome && p.dstOffset.isSome)

/-- The configured scheme of this block is not rewritten by the ST3
translation (either not running under Python 3, or not of ST2 shape). -/
def schemeNotTranslated (pv : Nat) (cfg : ConfigBlock) : Bool :=
  match cfg.color_scheme with
  | none => true
  | some sch =>
    !(decide (pv = 3) && pyStartsWith sch ST2_THEME_START && pyEndsWith sch ST2_THEME_END)

/-- `schemeNotTranslated` lifted to an optional config block. -/
def blockNotTranslated (pv : Nat) : Option ConfigBlock → Bool
  | none => true
  | some cfg => schemeNotTranslated pv cfg

/-- A settings state with fixed coordinates already resolved, used for
concrete evaluations. -/
def baseFixedState : SettingsState :=
  { loaded := true, sun := some ⟨some ⟨51, 4⟩⟩, coordinates := some ⟨51, 4⟩,
    timezone := none, fixedCoordinates := true, ipcache := none,
    tzcache := none, day := none, night := none }

/-- A dynamic-location state holding the result of an earlier successful
geo-IP lookup cached at time 0. -/
def geoFailState : SettingsState :=
  { loaded := true, sun := some ⟨some ⟨1, 2⟩⟩, coordinates := some ⟨1, 2⟩,
    timezone := none, fixedCoordinates := false, ipcache := some ⟨0⟩,
    tzcache := none, day := none, night := none }

/-- The spec's example of a configured ST2-convention color scheme. -/
def monokaiConfigured : String := "Packages/Color Scheme - Default/Monokai.tmTheme"

/-- The spec's example of the same scheme as the ST3 host stores it. -/
def monokaiStored : String := "Packages/User/Monokai (SL).tmTheme"

/-- State for the cycle idempotence counterexample: fixed coordinates, sun
resolved, timezone cache fresh at time 500, day block configured with the
ST2-convention Monokai scheme. -/
def c4S0 : SettingsState :=
  { loaded := true, sun := some ⟨some ⟨51, 4⟩⟩, coordinates := some ⟨51, 4⟩,
    timezone := some Timezone.utc, fixedCoordinates := true, ipcache := none,
    tzcache := some ⟨500, true, some ⟨51, 4⟩⟩,
    day := some ⟨some monokaiConfigured, none⟩, night := some ⟨none, none⟩ }

/-- Host preference store before the first cycle of the counterexample. -/
def c4P0 : PrefStore := ⟨some "x", none⟩

/-- Host preference store after the first cycle wrote the configured
literal. -/
def c4P1 : PrefStore := ⟨some monokaiConfigured, none⟩

/-- Constant sunrise instant used in concrete cycle runs. -/
def c4Sr : Sun → Int → Int := fun _ _ => 0

/-- Constant sunset instant used in concrete cycle runs. -/
def c4Ss : Sun → Int → Int := fun _ _ => 1000000

/-- State for the amended idempotence witness, before its first cycle
(timezone not yet resolved). -/
def c4wS0 : SettingsState :=
  { loaded := true, sun := some ⟨some ⟨51, 4⟩⟩, coordinates := some ⟨51, 4⟩,
    timezone := none, fixedCoordinates := true, ipcache := none,
    tzcache := none,
    day := some ⟨some "Solarized", none⟩, night := some ⟨none, none⟩ }

/-- State after the witness's first cycle resolved the timezone. -/
def c4wS1 : SettingsState :=
  { loaded := true, sun := some ⟨some ⟨51, 4⟩⟩, coordinates := some ⟨51, 4⟩,
    timezone := some Timezone.utc, fixedCoordinates := true, ipcache := none,
    tzcache := some ⟨0, true, some ⟨51, 4⟩⟩,
    day := some ⟨some "Solarized", none⟩, night := some ⟨none, none⟩ }

/-- A day/night block specifying a theme but no color scheme. -/
def missingSchemeBlock : ConfigBlock := ⟨none, some "Default.sublime-theme"⟩

/-- A settings state whose cached timezone snapshot holds different
coordinates than the current ones. -/
def tzWitnessState : SettingsState :=
  { loaded := true, sun := none, coordinates := some ⟨1, 2⟩,
    timezone := none, fixedCoordinates := true, ipcache := none,
    tzcache := some ⟨0, true, none⟩, day := none, night := none }

/-- Fresh settings object, as after `Settings.__init__` just before `load`. -/
def c10S0 : SettingsState :=
  { loaded := false, sun := none, coordinates := none, timezone := none,
    fixedCoordinates := false, ipcache := none, tzcache := none,
    day := none, night := none }

/-- First configuration: fixed coordinates (51, 4). -/
def c10Cfg1 : ConfigStore :=
  ⟨some ⟨some "DaySch", none⟩, some ⟨some "NightSch", none⟩, some 51, some 4⟩

/-- Edited configuration: fixed coordinates changed to (52, 5). -/
def c10Cfg2 : ConfigStore :=
  ⟨some ⟨some "DaySch", none⟩, some ⟨some "NightSch", none⟩, some 52, some 5⟩

/-- State after the first load of `c10Cfg1` at time 0: the sun evaluator was
built from coordinates (51, 4). -/
def c10SA : SettingsState :=
  { loaded := true, sun := some ⟨some ⟨51, 4⟩⟩, coordinates := some ⟨51, 4⟩,
    timezone := some Timezone.utc, fixedCoordinates := true, ipcache := none,
    tzcache := some ⟨0, true, some ⟨51, 4⟩⟩,
    day := some ⟨some "DaySch", none⟩, night := some ⟨some "NightSch", none⟩ }

/-- State after reloading `c10Cfg2` at time 100: coordinates moved to
(52, 5) yet `sun` still wraps (51, 4). -/
def c10SB : SettingsState :=
  { loaded := true, sun := some ⟨some ⟨51, 4⟩⟩, coordinates := some ⟨52, 5⟩,
    timezone := some Timezone.utc, fixedCoordinates := true, ipcache := none,
    tzcache := some ⟨100, true, some ⟨52, 5⟩⟩,
    day := some ⟨some "DaySch", none⟩, night := some ⟨some "NightSch", none⟩ }

lemma applyTheme_no_scheme_write (t : Option String) (p : PrefStore) (v : String) :
    WriteOp.setColorScheme v ∉ (SunCycle.applyTheme t p).2.1 := by
  rcases t with _ | th
  · simp [SunCycle.applyTheme]
  · simp only [SunCycle.applyTheme]
    split <;> simp

lemma applyScheme_write_eq (cw ncs : Option String) (p : PrefStore) (v : String)
    (h : WriteOp.setColorScheme v ∈ (SunCycle.applyScheme cw ncs p).2.1) : ncs = some v := by
  rcases ncs with _ | sch
  · simp [SunCycle.applyScheme] at h
  · simp only [SunCycle.applyScheme] at h
    split at h <;> simp_all

/-- Claim C1: the spec says a geo-IP failure with a previously cached
location is logged and the cached Coordinates returned without raising; the
code instead evaluates membership on the `None` returned by `_callJsonApi`
and raises `TypeError`, after overwriting the IP cache entry.  Evaluated at
the failing input: prior successful lookup cached at time 0, `getSun` at
time 100000 (cache stale), failed geo-IP call. -/
theorem getSun_geoip_failure_raises_typeError :
    Settings.getSun geoFailState 100000 none =
      (.error (.typeError "argument of type NoneType is not iterable"),
        { geoFailState with ipcache := some ⟨100000⟩ }, [NetworkCall.ipLookup]) ∧
    geoFailState.sun = some ⟨some ⟨1, 2⟩⟩ :=
  ⟨rfl, rfl⟩

/-- Claim C2, counterexample: a payload carrying `timeZoneName` but no
`rawOffset` makes `getTimeZone` raise `KeyError`, contradicting the claim
that any response missing a required field yields the UTC sentinel without
raising. -/
theorem getTimeZone_missing_rawOffset_raises :
    (Settings.getTimeZone baseFixedState 0 (some ⟨some "Asia/Kolkata", none, some 0⟩)).1 =
      .error (.keyError "rawOffset") :=
  rfl

/-- Claim C2, amended: `getTimeZone` never raises when the service call
errors out or the payload lacks `timeZoneName` (falling back to the UTC
sentinel on a refresh), and also not when `timeZoneName` comes with both
offset fields; only a payload with `timeZoneName` but a missing `rawOffset`
or `dstOffset` raises. -/
theorem getTimeZone_amended_fallback :
    ∀ (s : SettingsState) (now : Int) (resp : Option TzPayload),
      tzRespBenign resp = true →
      (∃ t, (Settings.getTimeZone s now resp).1 = .ok t) ∧
      (Settings.needsTzCacheRefresh s now = true → tzRespFailing resp = true →
        ((Settings.getTimeZone s now resp).2.1).timezone = some Timezone.utc) := by
  intro s now resp hb
  cases hr : Settings.needsTzCacheRefresh s now
  · refine ⟨⟨s.timezone, ?_⟩, ?_⟩
    · simp [Settings.getTimeZone, hr]
    · intro h; exact absurd h (by decide)
  · rcases resp with _ | p
    · refine ⟨⟨some Timezone.utc, ?_⟩, ?_⟩ <;>
        simp [Settings.getTimeZone, hr]
    · rcases hn : p.timeZoneName with _ | name
      · refine ⟨⟨some Timezone.utc, ?_⟩, ?_⟩ <;>
          simp [Settings.getTimeZone, hr, hn]
      · rcases hro : p.rawOffset with _ | raw
        · simp [tzRespBenign, hn, hro] at hb
        · rcases hdo : p.dstOffset with _ | dst
          · simp [tzRespBenign, hn, hro, hdo] at hb
          · refine ⟨⟨some (Timezone.fixedOffset (((raw + dst : Int) : Rat) / 60) name), ?_⟩, ?_⟩
            · simp [Settings.getTimeZone, hr, hn, hro, hdo]
            · intro _ hf
              simp [tzRespFailing, hn] at hf

/-- Claim C2, amended-claim witness: a failed service call on a state that
needs a refresh resolves to the UTC sentinel without raising. -/
theorem getTimeZone_amended_fallback_witness :
    ((Settings.getTimeZone baseFixedState 0 none).2.1).timezone = some Timezone.utc :=
  (getTimeZone_amended_fallback baseFixedState 0 none (by decide)).2 (by decide) (by decide)

/-- Claim C3: the timezone cache staleness predicate of the code coincides
with the spec's (no entry, or fixed-mode flag changed, or coordinates
changed, or age over one day); `getTimeZone` issues a lookup exactly when it
holds; and a coordinate difference alone forces it regardless of age. -/
theorem tzCacheRefresh_matches_spec :
    (∀ (s : SettingsState) (now : Int),
      Settings.needsTzCacheRefresh s now = needsTzCacheRefreshSpec s now) ∧
    (∀ (s : SettingsState) (now : Int) (resp : Option TzPayload),
      (Settings.getTimeZone s now resp).2.2 ≠ [] ↔
        Settings.needsTzCacheRefresh s now = true) ∧
    (∀ (s : SettingsState) (e : TzCacheEntry) (now : Int),
      s.tzcache = some e → e.coordinates ≠ s.coordinates →
      Settings.needsTzCacheRefresh s now = true) := by
  refine ⟨?_, ?_, ?_⟩
  · intro s now
    unfold Settings.needsTzCacheRefresh needsTzCacheRefreshSpec
    cases h : s.tzcache with
    | none => rfl
    | some e =>
      by_cases h1 : e.fixedCoordinates = s.fixedCoordinates <;>
        by_cases h2 : e.coordinates = s.coordinates <;>
        simp [h1, h2, TZ_CACHE_LIFETIME]
      omega
  · intro s now resp
    cases hr : Settings.needsTzCacheRefresh s now
    · simp [Settings.getTimeZone, hr]
    · simp only [Settings.getTimeZone, hr, if_true]
      rcases resp with _ | p
      · simp
      · rcases hn : p.timeZoneName with _ | name
        · simp [hn]
        · rcases hro : p.rawOffset with _ | raw
          · simp [hn, hro]
          · rcases hdo : p.dstOffset with _ | dst
            · simp [hn, hro, hdo]
            · simp [hn, hro, hdo]
  · intro s e now h hne
    unfold Settings.needsTzCacheRefresh
    rw [h]
    by_cases h1 : e.fixedCoordinates = s.fixedCoordinates <;> simp [h1, hne]

/-- Claim C3 witness: a cached snapshot whose coordinates differ from the
current ones is stale even though it is only 5 seconds old. -/
theorem tzCacheRefresh_matches_spec_witness :
    Settings.needsTzCacheRefresh tzWitnessState 5 = true :=
  tzCacheRefresh_matches_spec.2.2 tzWitnessState ⟨0, true, none⟩ 5 rfl (by decide)

/-- Claim C5: the configured ST2-convention value
`Packages/Color Scheme - Default/Monokai.tmTheme` compares equal to the
host-stored `Packages/User/Monokai (SL).tmTheme` under Python 3 so no write
occurs; and any color-scheme write that does occur stores exactly the
configured literal. -/
theorem colorScheme_translation_correct :
    (SunCycle.cycleApply 3 ⟨some monokaiConfigured, none⟩ ⟨some monokaiStored, some "T"⟩ =
      .ok (⟨some monokaiStored, some "T"⟩, [], false)) ∧
    ∀ (pv : Nat) (cfg : ConfigBlock) (prefs : PrefStore)
      (res : PrefStore × List WriteOp × Bool),
      SunCycle.cycleApply pv cfg prefs = .ok res →
      ∀ v : String, WriteOp.setColorScheme v ∈ res.2.1 → cfg.color_scheme = some v := by
  constructor
  · rfl
  · intro pv cfg prefs res h v hv
    unfold SunCycle.cycleApply at h
    cases ht : SunCycle.translateScheme pv cfg.color_scheme with
    | error e => rw [ht] at h; exact absurd h (by simp)
    | ok cw =>
      rw [ht] at h
      simp only [Except.ok.injEq] at h
      rw [← h] at hv
      simp only at hv
      rcases List.mem_append.mp hv with h1 | h2
      · exact applyScheme_write_eq cw cfg.color_scheme prefs v h1
      · exact absurd h2 (applyTheme_no_scheme_write cfg.theme _ v)

/-- Claim C5 witness: when the stored scheme differs and a write occurs, the
recorded write carries the configured literal. -/
theorem colorScheme_translation_correct_witness :
    ConfigBlock.color_scheme ⟨some "A", none⟩ = some "A" :=
  colorScheme_translation_correct.2 2 ⟨some "A", none⟩ ⟨some "B", none⟩
    (⟨some "A", none⟩, [WriteOp.setColorScheme "A"], true) rfl "A" (by simp)

/-- Claim C6: the spec says a block without `color_scheme` is skipped and
the cycle completes; under Python 3 the code instead raises
`AttributeError` because `newColorScheme.startswith(...)` runs on `None`
before the truthiness guard (under Python 2 the short-circuit on
`pyVersion == 3` makes the skip work as specified). -/
theorem cycle_missing_colorScheme_raises :
    SunCycle.cycleApply 3 missingSchemeBlock ⟨none, none⟩ =
      .error (.attributeError "NoneType object has no attribute startswith") ∧
    SunCycle.cycleApply 2 missingSchemeBlock ⟨none, none⟩ =
      .ok (⟨none, some "Default.sublime-theme"⟩,
        [WriteOp.setTheme "Default.sublime-theme"], true) :=
  ⟨rfl, rfl⟩

/-- Claim C7: the classification is `day` exactly when
`sunrise ≤ now ≤ sunset`, and with sunrise 06:00 (21600 s) and sunset 18:00
(64800 s) the instants 06:00:00 and 18:00:00 are day while 05:59:59 and
18:00:01 are night, through `getDayOrNight` itself. -/
theorem dayNight_boundary_inclusive :
    (∀ now sr ss : Int, dayOrNightOf now sr ss = "day" ↔ (sr ≤ now ∧ now ≤ ss)) ∧
    (SunCycle.getDayOrNight baseFixedState 21600 none none
      (fun _ _ => 21600) (fun _ _ => 64800)).1 = .ok "day" ∧
    (SunCycle.getDayOrNight baseFixedState 64800 none none
      (fun _ _ => 21600) (fun _ _ => 64800)).1 = .ok "day" ∧
    (SunCycle.getDayOrNight baseFixedState 21599 none none
      (fun _ _ => 21600) (fun _ _ => 64800)).1 = .ok "night" ∧
    (SunCycle.getDayOrNight baseFixedState 64801 none none
      (fun _ _ => 21600) (fun _ _ => 64800)).1 = .ok "night" := by
  refine ⟨?_, rfl, rfl, rfl, rfl⟩
  intro now sr ss
  constructor
  · intro hd
    by_cases h : sr ≤ now ∧ now ≤ ss
    · exact h
    · unfold dayOrNightOf at hd
      rw [if_neg h] at hd
      exact absurd hd (by decide)
  · intro h
    unfold dayOrNightOf
    rw [if_pos h]

/-- Claim C7 witness: the boundary instant 06:00 classifies as day. -/
theorem dayNight_boundary_inclusive_witness :
    dayOrNightOf 21600 21600 64800 = "day" :=
  (dayNight_boundary_inclusive.1 21600 21600 64800).mpr (by decide)

/-- Claim C8: a configuration missing its `day` or `night` block makes
`load` fail with the missing-setting `KeyError` (the spec's ConfigError)
and no network lookup is ever issued. -/
theorem load_missing_block_no_network :
    ∀ (s : SettingsState) (cfg : ConfigStore) (now : Int)
      (geo : Option GeoPayload) (tz : Option TzPayload),
      cfg.day = none ∨ cfg.night = none →
      (∃ msg, (Settings.load s cfg now geo tz).1 = .error (.keyError msg)) ∧
      (Settings.load s cfg now geo tz).2.2 = [] := by
  intro s cfg now geo tz h
  rcases h with h | h
  · refine ⟨⟨"SunCycle: missing day setting", ?_⟩, ?_⟩ <;>
      simp [Settings.load, h]
  · by_cases hd : cfg.day = none
    · refine ⟨⟨"SunCycle: missing day setting", ?_⟩, ?_⟩ <;>
        simp [Settings.load, hd]
    · refine ⟨⟨"SunCycle: missing night setting", ?_⟩, ?_⟩ <;>
        simp [Settings.load, h, hd]

/-- Claim C8 witness: a configuration with only a `night` block fails with
the missing-day `KeyError` and issues no lookup. -/
theorem load_missing_block_no_network_witness :
    (∃ msg, (Settings.load c10S0 ⟨none, some ⟨none, none⟩, none, none⟩ 0 none none).1 =
      .error (.keyError msg)) ∧
    (Settings.load c10S0 ⟨none, some ⟨none, none⟩, none, none⟩ 0 none none).2.2 = [] :=
  load_missing_block_no_network c10S0 ⟨none, some ⟨none, none⟩, none, none⟩ 0 none none
    (Or.inl rfl)

/-- Claim C9: once `stop()` has set the halt flag, any number of later
firings of the periodic callback leave the scheduler state untouched: no
cycle runs, no timer is re-armed, and the halt flag stays set. -/
theorem stop_terminal_no_more_cycles :
    ∀ (α : Type) (cycleFn : α → α) (st : SchedulerState α) (n : Nat),
      (SunCycle.loop cycleFn)^[n] (SunCycle.stop st) = SunCycle.stop st ∧
      (SunCycle.stop st).halt = true ∧
      ((SunCycle.loop cycleFn)^[n] (SunCycle.stop st)).cyclesRun = st.cyclesRun ∧
      ((SunCycle.loop cycleFn)^[n] (SunCycle.stop st)).timersScheduled =
        st.timersScheduled := by
  intro α f st n
  have hfix : SunCycle.loop f (SunCycle.stop st) = SunCycle.stop st := by
    simp [SunCycle.loop, SunCycle.stop]
  have hit : (SunCycle.loop f)^[n] (SunCycle.stop st) = SunCycle.stop st :=
    Function.iterate_fixed hfix n
  refine ⟨hit, rfl, ?_, ?_⟩ <;> rw [hit] <;> rfl

lemma needsIpCacheRefresh_eq_of_ipcache {s1 s2 : SettingsState} (now : Int)
    (h : s1.ipcache = s2.ipcache) :
    Settings.needsIpCacheRefresh s1 now = Settings.needsIpCacheRefresh s2 now := by
  unfold Settings.needsIpCacheRefresh
  rw [h]

lemma bool_not_true {b : Bool} (h : ¬b = true) : b = false := by
  cases hx : b
  · rfl
  · exact absurd hx h

lemma getSun_again {s : SettingsState} (now : Int) (geo : Option GeoPayload)
    {sun : Sun} (hs : s.sun = some sun)
    (hnr : s.fixedCoordinates = false → Settings.needsIpCacheRefresh s now = false) :
    Settings.getSun s now geo = (.ok sun, s, []) := by
  by_cases hf : s.fixedCoordinates = true
  · simp [Settings.getSun, hf, hs]
  · have hf' := bool_not_true hf
    simp [Settings.getSun, hf', hnr hf', Settings.sunResult, hs]

lemma getSun_ok_state {s : SettingsState} {now : Int} {geo : Option GeoPayload}
    {sun : Sun} {s1 : SettingsState} {c : List NetworkCall}
    (h : Settings.getSun s now geo = (.ok sun, s1, c)) :
    s1.sun = some sun ∧ s1.fixedCoordinates = s.fixedCoordinates ∧
    s1.day = s.day ∧ s1.night = s.night ∧ s1.tzcache = s.tzcache ∧
    s1.timezone = s.timezone ∧
    (s.fixedCoordinates = false → Settings.needsIpCacheRefresh s1 now = false) := by
  by_cases hf : s.fixedCoordinates = true
  · rcases hs : s.sun with _ | u
    · simp only [Settings.getSun, hf, hs, if_true] at h
      simp only [Prod.mk.injEq, Except.ok.injEq] at h
      obtain ⟨h1, h2, h3⟩ := h
      subst h2
      simp [hs, h1, hf]
    · simp only [Settings.getSun, hf, hs, if_true] at h
      simp only [Prod.mk.injEq, Except.ok.injEq] at h
      obtain ⟨h1, h2, h3⟩ := h
      subst h2
      simp [hs, h1, hf]
  · have hf' := bool_not_true hf
    by_cases hr : Settings.needsIpCacheRefresh s now = true
    · rcases geo with _ | p
      · simp [Settings.getSun, hf', hr] at h
      · rcases hla : p.latitude with _ | la
        · rcases hs : s.sun with _ | u
          · simp [Settings.getSun, hf', hr, hla, hs, Settings.sunResult] at h
          · simp [Settings.getSun, hf', hr, hla, hs, Settings.sunResult,
              Prod.mk.injEq] at h
            obtain ⟨h1, h2, h3⟩ := h
            subst h2
            simp [hs, h1, hf', Settings.needsIpCacheRefresh, IP_CACHE_LIFETIME]
        · rcases hlo : p.longitude with _ | lo
          · rcases hs : s.sun with _ | u
            · simp [Settings.getSun, hf', hr, hla, hlo, hs, Settings.sunResult] at h
            · simp [Settings.getSun, hf', hr, hla, hlo, hs, Settings.sunResult,
                Prod.mk.injEq] at h
              obtain ⟨h1, h2, h3⟩ := h
              subst h2
              simp [hs, h1, hf', Settings.needsIpCacheRefresh, IP_CACHE_LIFETIME]
          · simp [Settings.getSun, hf', hr, hla, hlo, Settings.sunResult,
              Prod.mk.injEq] at h
            obtain ⟨h1, h2, h3⟩ := h
            subst h2
            simp [h1, hf', Settings.needsIpCacheRefresh, IP_CACHE_LIFETIME]
    · have hr' := bool_not_true hr
      rcases hs : s.sun with _ | u
      · simp [Settings.getSun, hf', hr', hs, Settings.sunResult] at h
      · simp [Settings.getSun, hf', hr', hs, Settings.sunResult,
          Prod.mk.injEq] at h
        obtain ⟨h1, h2, h3⟩ := h
        subst h2
        simp [hs, h1, hf', hr']

lemma getTimeZone_again {s : SettingsState} (now : Int) (tzResp : Option TzPayload)
    (hnr : Settings.needsTzCacheRefresh s now = false) :
    Settings.getTimeZone s now tzResp = (.ok s.timezone, s, []) := by
  simp [Settings.getTimeZone, hnr]

lemma getTimeZone_ok_state {s : SettingsState} {now : Int} {tzResp : Option TzPayload}
    {t : Option Timezone} {s1 : SettingsState} {c : List NetworkCall}
    (h : Settings.getTimeZone s now tzResp = (.ok t, s1, c)) :
    t = s1.timezone ∧ s1.fixedCoordinates = s.fixedCoordinates ∧
    s1.coordinates = s.coordinates ∧ s1.sun = s.sun ∧ s1.ipcache = s.ipcache ∧
    s1.day = s.day ∧ s1.night = s.night ∧
    Settings.needsTzCacheRefresh s1 now = false := by
  by_cases hr : Settings.needsTzCacheRefresh s now = true
  · rcases tzResp with _ | p
    · simp [Settings.getTimeZone, hr, Prod.mk.injEq] at h
      obtain ⟨h1, h2, h3⟩ := h
      subst h2
      simp [h1, Settings.needsTzCacheRefresh, TZ_CACHE_LIFETIME]
    · rcases hn : p.timeZoneName with _ | name
      · simp [Settings.getTimeZone, hr, hn, Prod.mk.injEq] at h
        obtain ⟨h1, h2, h3⟩ := h
        subst h2
        simp [h1, Settings.needsTzCacheRefresh, TZ_CACHE_LIFETIME]
      · rcases hro : p.rawOffset with _ | raw
        · simp [Settings.getTimeZone, hr, hn, hro, Prod.mk.injEq] at h
        · rcases hdo : p.dstOffset with _ | dst
          · simp [Settings.getTimeZone, hr, hn, hro, hdo, Prod.mk.injEq] at h
          · simp [Settings.getTimeZone, hr, hn, hro, hdo, Prod.mk.injEq] at h
            obtain ⟨h1, h2, h3⟩ := h
            subst h2
            simp [h1, Settings.needsTzCacheRefresh, TZ_CACHE_LIFETIME]
  · have hr' := bool_not_true hr
    simp [Settings.getTimeZone, hr', Prod.mk.injEq] at h
    obtain ⟨h1, h2, h3⟩ := h
    subst h2
    simp [h1, hr']

lemma getDayOrNight_stable {s : SettingsState} {now : Int}
    {geo : Option GeoPayload} {tzResp : Option TzPayload}
    {sunrise sunset : Sun → Int → Int} {cls : String}
    {s1 : SettingsState} {c : List NetworkCall}
    (h : SunCycle.getDayOrNight s now geo tzResp sunrise sunset = (.ok cls, s1, c)) :
    SunCycle.getDayOrNight s1 now geo tzResp sunrise sunset = (.ok cls, s1, []) ∧
    s1.day = s.day ∧ s1.night = s.night := by
  unfold SunCycle.getDayOrNight at h
  rcases hga : Settings.getSun s now geo with ⟨rs, sA, cA⟩
  rw [hga] at h
  rcases rs with e | sun
  · simp at h
  · dsimp only at h
    rcases htz : Settings.getTimeZone sA now tzResp with ⟨rt, sB, cB⟩
    rw [htz] at h
    rcases rt with e | t
    · simp at h
    · simp only [Prod.mk.injEq, Except.ok.injEq] at h
      obtain ⟨h1, h2, h3⟩ := h
      subst h2
      obtain ⟨ga1, ga2, ga3, ga4, ga5, ga6, ga7⟩ := getSun_ok_state hga
      obtain ⟨tz1, tz2, tz3, tz4, tz5, tz6, tz7, tz8⟩ := getTimeZone_ok_state htz
      have hsun1 : sB.sun = some sun := by rw [tz4, ga1]
      have hga2 : Settings.getSun sB now geo = (.ok sun, sB, []) := by
        refine getSun_again now geo hsun1 ?_
        intro hfix
        have hfa : sA.fixedCoordinates = false := by rw [← tz2, hfix]
        have hnra : Settings.needsIpCacheRefresh sA now = false := by
          apply ga7
          rw [← ga2, hfa]
        rw [needsIpCacheRefresh_eq_of_ipcache now tz5, hnra]
      have htz2 : Settings.getTimeZone sB now tzResp = (.ok sB.timezone, sB, []) :=
        getTimeZone_again now tzResp tz8
      unfold SunCycle.getDayOrNight
      rw [hga2]
      dsimp only
      rw [htz2]
      refine ⟨?_, ?_, ?_⟩
      · simp [h1]
      · rw [tz6, ga3]
      · rw [tz7, ga4]

lemma applyTheme_keeps_scheme (t : Option String) (p : PrefStore) :
    (SunCycle.applyTheme t p).1.color_scheme = p.color_scheme := by
  rcases t with _ | th
  · simp [SunCycle.applyTheme]
  · simp only [SunCycle.applyTheme]
    split <;> simp

lemma applyScheme_stable (ncs : Option String) (p q : PrefStore)
    (hq : q.color_scheme = (SunCycle.applyScheme ncs ncs p).1.color_scheme) :
    SunCycle.applyScheme ncs ncs q = (q, [], false) := by
  rcases ncs with _ | sch
  · simp [SunCycle.applyScheme]
  · simp only [SunCycle.applyScheme] at hq ⊢
    by_cases hc : sch ≠ "" ∧ (some sch : Option String) ≠ p.color_scheme
    · rw [if_pos hc] at hq
      rw [if_neg]
      intro hcon
      exact hcon.2 hq.symm
    · rw [if_neg hc] at hq
      rw [if_neg]
      rw [hq]
      exact hc

lemma applyTheme_stable (t : Option String) (p q : PrefStore)
    (hq : q.theme = (SunCycle.applyTheme t p).1.theme) :
    SunCycle.applyTheme t q = (q, [], false) := by
  rcases t with _ | th
  · simp [SunCycle.applyTheme]
  · simp only [SunCycle.applyTheme] at hq ⊢
    by_cases hc : th ≠ "" ∧ (some th : Option String) ≠ p.theme
    · rw [if_pos hc] at hq
      rw [if_neg]
      intro hcon
      exact hcon.2 hq.symm
    · rw [if_neg hc] at hq
      rw [if_neg]
      rw [hq]
      exact hc

lemma cycleApply_idem {pv : Nat} {cfg : ConfigBlock} {prefs prefs' : PrefStore}
    {w : List WriteOp} {sv : Bool}
    (h : SunCycle.cycleApply pv cfg prefs = .ok (prefs', w, sv))
    (hnt : schemeNotTranslated pv cfg = true) :
    SunCycle.cycleApply pv cfg prefs' = .ok (prefs', [], false) := by
  have htr : SunCycle.translateScheme pv cfg.color_scheme = .ok cfg.color_scheme := by
    by_cases hp : pv = 3
    · rcases hcs : cfg.color_scheme with _ | sch
      · exfalso
        unfold SunCycle.cycleApply SunCycle.translateScheme at h
        simp [hp, hcs] at h
      · simp only [schemeNotTranslated, hcs, hp, decide_true_eq_true] at hnt
        simp only [Bool.true_and] at hnt
        have hff : (pyStartsWith sch ST2_THEME_START && pyEndsWith sch ST2_THEME_END) = false := by
          cases hb : (pyStartsWith sch ST2_THEME_START && pyEndsWith sch ST2_THEME_END)
          · rfl
          · rw [hb] at hnt
            exact absurd hnt (by decide)
        simp [SunCycle.translateScheme, hp, hcs, hff]
    · simp [SunCycle.translateScheme, hp]
  unfold SunCycle.cycleApply at h ⊢
  rw [htr] at h ⊢
  dsimp only at h ⊢
  simp only [Except.ok.injEq, Prod.mk.injEq] at h
  obtain ⟨h1, h2, h3⟩ := h
  have hsch : SunCycle.applyScheme cfg.color_scheme cfg.color_scheme prefs' =
      (prefs', [], false) := by
    apply applyScheme_stable cfg.color_scheme prefs prefs'
    rw [← h1]
    exact applyTheme_keeps_scheme cfg.theme _
  have hth : SunCycle.applyTheme cfg.theme prefs' = (prefs', [], false) := by
    apply applyTheme_stable cfg.theme (SunCycle.applyScheme cfg.color_scheme cfg.color_scheme prefs).1 prefs'
    rw [← h1]
  rw [hsch]
  dsimp only
  rw [hth]
  rfl

/-- Claim C4, amended: when the ST3 color-scheme translation does not
rewrite the configured value of either block (pyVersion is not 3, or the
scheme is not of ST2 shape), a second `cycle` right after a successful one,
with unchanged settings, preference store, clock classification and network
state, performs zero preference-store writes, no save, and no lookup. -/
theorem cycle_idempotent_amended
    {pv : Nat} {s : SettingsState} {prefs prefs' : PrefStore} {now : Int}
    {geo : Option GeoPayload} {tz : Option TzPayload}
    {sunrise sunset : Sun → Int → Int}
    {w : List WriteOp} {sv : Bool} {s1 : SettingsState} {calls : List NetworkCall}
    (h : SunCycle.cycle pv s prefs now geo tz sunrise sunset =
      (.ok (prefs', w, sv), s1, calls))
    (hday : blockNotTranslated pv s.day = true)
    (hnight : blockNotTranslated pv s.night = true) :
    SunCycle.cycle pv s1 prefs' now geo tz sunrise sunset =
      (.ok (prefs', [], false), s1, []) := by
  unfold SunCycle.cycle at h
  rcases hdn : SunCycle.getDayOrNight s now geo tz sunrise sunset with ⟨rc, sA, cA⟩
  rw [hdn] at h
  rcases rc with e | cls
  · simp at h
  · dsimp only at h
    rcases hcf : (if cls = "day" then sA.day else sA.night) with _ | cfg
    · rw [hcf] at h
      simp at h
    · rw [hcf] at h
      dsimp only at h
      rcases hca : SunCycle.cycleApply pv cfg prefs with e | r
      · rw [hca] at h
        simp at h
      · rw [hca] at h
        simp only [Prod.mk.injEq, Except.ok.injEq] at h
        obtain ⟨h1, h2, h3⟩ := h
        subst h2
        obtain ⟨hdn2, hdayEq, hnightEq⟩ := getDayOrNight_stable hdn
        have hnt : schemeNotTranslated pv cfg = true := by
          by_cases hcls : cls = "day"
          · simp only [hcls, if_true] at hcf
            rw [← hdayEq] at hday
            rw [hcf] at hday
            simpa [blockNotTranslated] using hday
          · simp only [hcls, if_false] at hcf
            rw [← hnightEq] at hnight
            rw [hcf] at hnight
            simpa [blockNotTranslated] using hnight
        rw [h1] at hca
        have hstep := cycleApply_idem hca hnt
        unfold SunCycle.cycle
        rw [hdn2]
        dsimp only
        rw [hcf]
        dsimp only
        rw [hstep]

/-- Claim C4, counterexample: under pyVersion 3 with the day block
configured to the ST2-shape Monokai scheme, the second of two consecutive
`cycle` calls with unchanged inputs again writes the color scheme and saves,
because the stored literal keeps differing from the translated comparison
value. -/
theorem cycle_second_call_writes_again :
    SunCycle.cycle 3 c4S0 c4P0 500 none none c4Sr c4Ss =
      (.ok (c4P1, [WriteOp.setColorScheme monokaiConfigured], true), c4S0, []) ∧
    SunCycle.cycle 3 c4S0 c4P1 500 none none c4Sr c4Ss =
      (.ok (c4P1, [WriteOp.setColorScheme monokaiConfigured], true), c4S0, []) ∧
    ([WriteOp.setColorScheme monokaiConfigured] : List WriteOp) ≠ [] :=
  ⟨rfl, rfl, by simp⟩

/-- Claim C4, amended-claim witness: a concrete pyVersion-2 run whose
second cycle is a no-op. -/
theorem cycle_idempotent_amended_witness :
    SunCycle.cycle 2 c4wS1 ⟨some "Solarized", none⟩ 0 none none c4Sr c4Ss =
      (.ok (⟨some "Solarized", none⟩, [], false), c4wS1, []) :=
  cycle_idempotent_amended
    (show SunCycle.cycle 2 c4wS0 ⟨none, none⟩ 0 none none c4Sr c4Ss =
      (.ok (⟨some "Solarized", none⟩, [WriteOp.setColorScheme "Solarized"], true),
        c4wS1, [NetworkCall.tzLookup]) from rfl)
    (by decide) (by decide)

/-- Claim C10: a `load` with fixed coordinates configured leaves the
memoized sun evaluator exactly as it was (resetting the IP cache and
overwriting the current Coordinates), so every later `getSun` still returns
the evaluator built when the sun was first resolved. -/
theorem load_fixed_preserves_sun :
    ∀ (s : SettingsState) (cfg : ConfigStore) (now : Int)
      (geo : Option GeoPayload) (tz : Option TzPayload)
      (la lo : Rat) (sun0 : Sun) (s2 : SettingsState) (calls : List NetworkCall),
      cfg.latitude = some la → cfg.longitude = some lo →
      s.sun = some sun0 →
      Settings.load s cfg now geo tz = (.ok (), s2, calls) →
      s2.sun = some sun0 ∧ s2.coordinates = some ⟨la, lo⟩ ∧ s2.ipcache = none ∧
      s2.fixedCoordinates = true ∧
      ∀ (now2 : Int) (geo2 : Option GeoPayload),
        Settings.getSun s2 now2 geo2 = (.ok sun0, s2, []) := by
  intro s cfg now geo tz la lo sun0 s2 calls hla hlo hsun h
  unfold Settings.load at h
  by_cases hd : cfg.day.isNone
  · rw [if_pos hd] at h
    simp at h
  · rw [if_neg hd] at h
    by_cases hn : cfg.night.isNone
    · rw [if_pos hn] at h
      simp at h
    · rw [if_neg hn] at h
      rw [hla, hlo] at h
      dsimp only at h
      have hga : Settings.getSun
          { s with tzcache := none, ipcache := none, day := cfg.day,
                   night := cfg.night, fixedCoordinates := true,
                   coordinates := some ⟨la, lo⟩ } now geo =
          (.ok sun0,
            { s with tzcache := none, ipcache := none, day := cfg.day,
                     night := cfg.night, fixedCoordinates := true,
                     coordinates := some ⟨la, lo⟩ }, []) := by
        apply getSun_again
        · exact hsun
        · intro hfix
          simp at hfix
      rw [hga] at h
      dsimp only at h
      rcases htz : Settings.getTimeZone
          { s with tzcache := none, ipcache := none, day := cfg.day,
                   night := cfg.night, fixedCoordinates := true,
                   coordinates := some ⟨la, lo⟩ } now tz with ⟨rt, sB, cB⟩
      rw [htz] at h
      rcases rt with e | t
      · simp at h
      · simp only [Prod.mk.injEq, Except.ok.injEq] at h
        obtain ⟨h1, h2, h3⟩ := h
        obtain ⟨tz1, tz2, tz3, tz4, tz5, tz6, tz7, tz8⟩ := getTimeZone_ok_state htz
        have hb1 : s2.sun = some sun0 := by
          rw [← h2]
          simp only [SettingsState.sun] at tz4 ⊢
          rw [tz4]
          simpa using hsun
        have hb2 : s2.coordinates = some ⟨la, lo⟩ := by
          rw [← h2]
          simpa using tz3
        have hb3 : s2.ipcache = none := by
          rw [← h2]
          simpa using tz5
        have hb4 : s2.fixedCoordinates = true := by
          rw [← h2]
          simpa using tz2
        refine ⟨hb1, hb2, hb3, hb4, ?_⟩
        intro now2 geo2
        apply getSun_again
        · exact hb1
        · intro hfix
          rw [hb4] at hfix
          exact absurd hfix (by decide)

/-- Claim C10 witness: after reloading a configuration whose fixed
coordinates moved from (51, 4) to (52, 5), `getSun` still returns the
evaluator wrapping (51, 4). -/
theorem load_fixed_preserves_sun_witness :
    Settings.getSun c10SB 999 none = (.ok ⟨some ⟨51, 4⟩⟩, c10SB, []) :=
  (load_fixed_preserves_sun c10SA c10Cfg2 100 none none 52 5 ⟨some ⟨51, 4⟩⟩ c10SB
    [NetworkCall.tzLookup] rfl rfl rfl rfl).2.2.2.2 999 none
